import Mathlib

/-!
Verification of tools/create_dev_icons.py.

The script reads the production icons of a Chrome extension, overlays a
translucent crimson triangle and a white "DEV" label on the bottom-right
corner of each, and writes the result into a dev subdirectory.

The embedding below models raster images as total pixel functions over
integer coordinates, the Pillow operations used by the script
(convert to RGBA, Image.new, polygon fill, alpha_composite, truetype font
loading with fallback, textbbox measurement, text drawing, save), and the
batch driver main together with the filesystem it touches.
-/

/-- An 8-bit-per-channel RGBA color, each channel in 0..255. -/
structure RGBA where
  r : Nat
  g : Nat
  b : Nat
  a : Nat
deriving DecidableEq

/-- Pillow image modes that matter here: RGBA, RGB, grayscale, palette. -/
inductive Mode where
  | rgba
  | rgb
  | gray
  | pal
deriving DecidableEq

/-- A raster image: dimensions, a Pillow mode tag, and the pixel data.
Pixel data is modelled as a total function on integer coordinates whose
values are already RGBA samples; the mode tag records what Pillow would
report for the in-memory object. -/
structure Image where
  width : Nat
  height : Nat
  mode : Mode
  pixel : Int → Int → RGBA

/-- The conversion to RGBA at line 33: the result is an RGBA-mode image of
the same size; pixel data is modelled as already being in RGBA form, so
only the mode tag changes. -/
def convertRGBA (img : Image) : Image :=
  { img with mode := Mode.rgba }

/-- Image.new at line 40: a fresh image of the given size filled with one
color, in RGBA mode. -/
def newImage (w h : Nat) (c : RGBA) : Image :=
  { width := w, height := h, mode := Mode.rgba, pixel := fun _ _ => c }

/-- triangle_size = int(width * 0.6) at line 44.  For every width that an
image can have, the Python float computation int(width * 0.6) agrees with
exact floor division by ten of six times the width. -/
def triangleSize (width : Nat) : Nat := width * 6 / 10

/-- The polygon vertex list of lines 45-49:
[(width, height), (width - triangle_size, height), (width, height - triangle_size)]. -/
def triangleVertices (width height : Nat) : List (Int × Int) :=
  [((width : Int), (height : Int)),
   ((width : Int) - triangleSize width, (height : Int)),
   ((width : Int), (height : Int) - triangleSize width)]

/-- Rasterization of the right triangle spanned by triangleVertices:
the pixels of the image grid on or below-right of the hypotenuse
x + y = width + height - triangle_size. -/
def inTriangle (width height : Nat) (x y : Int) : Bool :=
  decide ((width : Int) + (height : Int) ≤ x + y + triangleSize width)
    && decide (x < (width : Int)) && decide (y < (height : Int))

/-- The fill color of line 50: crimson with alpha 200. -/
def overlayFill : RGBA := ⟨220, 20, 60, 200⟩

/-- overlay_draw.polygon(triangle, fill=...) at line 50: set every pixel of
the rasterized triangle to the fill color. -/
def fillTriangle (img : Image) (c : RGBA) : Image :=
  { img with pixel := fun x y =>
      if inTriangle img.width img.height x y then c else img.pixel x y }

/-- Approximate division by 255 used by Pillow (SHIFTFORDIV255). -/
def shiftForDiv255 (v : Nat) : Nat := (v / 256 + v) / 256

/-- One pixel of Image.alpha_composite, following the integer algorithm of
Pillow (AlphaComposite.c, PRECISION_BITS = 7): a fully transparent
foreground leaves the background pixel, a fully opaque foreground replaces
it, and otherwise the channels are blended over the combined alpha. -/
def alphaCompositePixel (dst src : RGBA) : RGBA :=
  if src.a = 0 then dst
  else if src.a = 255 then src
  else
    let blend := dst.a * (255 - src.a)
    let outa255 := src.a * 255 + blend
    let coef1 := src.a * 255 * 255 * 128 / outa255
    let coef2 := 255 * 128 - coef1
    let tmpr := src.r * coef1 + dst.r * coef2
    let tmpg := src.g * coef1 + dst.g * coef2
    let tmpb := src.b * coef1 + dst.b * coef2
    { r := shiftForDiv255 (tmpr + 128 * 128) / 128
      g := shiftForDiv255 (tmpg + 128 * 128) / 128
      b := shiftForDiv255 (tmpb + 128 * 128) / 128
      a := shiftForDiv255 (outa255 + 128) }

/-- Image.alpha_composite(img, overlay) at line 53: pixelwise compositing of
the overlay over the base image; the result is RGBA with the dimensions of
the base image. -/
def alphaComposite (bg fg : Image) : Image :=
  { width := bg.width, height := bg.height, mode := Mode.rgba,
    pixel := fun x y => alphaCompositePixel (bg.pixel x y) (fg.pixel x y) }

/-- The bounding box returned by draw.textbbox((0, 0), text, font): left,
top, right, bottom offsets relative to the drawing origin. -/
structure BBox where
  x0 : Int
  y0 : Int
  x1 : Int
  y1 : Int
deriving DecidableEq

/-- An abstract font: the measured bounding box of the string "DEV" and the
glyph coverage mask of that string, both relative to the drawing origin. -/
structure Font where
  bboxDEV : BBox
  mask : Int → Int → Bool

/-- The environment the script draws fonts from: ImageFont.truetype is a
partial map from font path and size to a font, and ImageFont.load_default
yields the built-in fallback font. -/
structure FontEnv where
  sys : String → Nat → Option Font
  dflt : Font

/-- First font path tried, line 62. -/
def dejavuPath : String := "/usr/share/fonts/truetype/dejavu/DejaVuSans-Bold.ttf"

/-- Second font path tried, line 66. -/
def winPath : String := "C:/Windows/Fonts/arialbd.ttf"

/-- Third font path tried, line 70. -/
def macPath : String := "/System/Library/Fonts/Helvetica.ttc"

/-- font_size = max(6, int(width * 0.25)) at line 58; int(width * 0.25) is
exactly width / 4 because 0.25 is a dyadic rational. -/
def fontSize (width : Nat) : Nat := max 6 (width / 4)

/-- The nested try blocks of lines 60-74: try the three system font paths
in order at the given size and fall back to the default font when none
loads. -/
def loadFont (sys : String → Nat → Option Font) (dflt : Font) (size : Nat) : Font :=
  match sys dejavuPath size with
  | some f => f
  | none =>
    match sys winPath size with
    | some f => f
    | none =>
      match sys macPath size with
      | some f => f
      | none => dflt

/-- The font actually used for an icon of the given width. -/
def usedFont (env : FontEnv) (width : Nat) : Font :=
  loadFont env.sys env.dflt (fontSize width)

/-- text_width = bbox[2] - bbox[0] at line 81. -/
def textWidth (f : Font) : Int := f.bboxDEV.x1 - f.bboxDEV.x0

/-- text_height = bbox[3] - bbox[1] at line 82. -/
def textHeight (f : Font) : Int := f.bboxDEV.y1 - f.bboxDEV.y0

/-- x = width - text_width - 2 at line 85. -/
def textX (width : Nat) (f : Font) : Int := (width : Int) - textWidth f - 2

/-- y = height - text_height - 2 at line 86. -/
def textY (height : Nat) (f : Font) : Int := (height : Int) - textHeight f - 2

/-- The x coordinate of the right edge of the bounding box of the drawn
text: the text is rendered at (textX, textY) with its glyphs confined to
the measured bbox, so the right edge lands at textX + bbox right. -/
def renderedRight (width : Nat) (f : Font) : Int := textX width f + f.bboxDEV.x1

/-- The y coordinate of the bottom edge of the bounding box of the drawn
text, by the same reasoning. -/
def renderedBottom (height : Nat) (f : Font) : Int := textY height f + f.bboxDEV.y1

/-- draw.text((x, y), text, fill, font) at line 89: on an RGBA image with a
plain ImageDraw object the fill replaces the pixels covered by the glyph
mask. -/
def drawText (img : Image) (px py : Int) (f : Font) (c : RGBA) : Image :=
  { img with pixel := fun x y =>
      if f.mask (x - px) (y - py) then c else img.pixel x y }

/-- The fill of line 89: solid white. -/
def white : RGBA := ⟨255, 255, 255, 255⟩

/-- create_dev_icon (lines 30-92) on a successfully loaded image: convert
to RGBA, build the transparent overlay, fill the bottom-right triangle,
alpha-composite it over the icon, pick the font, measure "DEV", and draw it
in white at the computed position.  Saving is modelled at the batch level. -/
def createDevIcon (env : FontEnv) (srcImg : Image) : Image :=
  let img := convertRGBA srcImg
  let w := img.width
  let h := img.height
  let overlay := fillTriangle (newImage w h ⟨255, 0, 0, 0⟩) overlayFill
  let composed := alphaComposite img overlay
  let f := usedFont env w
  drawText composed (textX w f) (textY h f) f white

/-- Whether the drawn "DEV" label covers the pixel (x, y) of an icon with
the given dimensions. -/
def textCovers (env : FontEnv) (width height : Nat) (x y : Int) : Bool :=
  (usedFont env width).mask (x - textX width (usedFont env width))
    (y - textY height (usedFont env width))

/-- C1: create_dev_icon preserves the dimensions of the loaded source
image: every operation is pixelwise on buffers of the source size. -/
theorem createDevIcon_preserves_dimensions (env : FontEnv) (img : Image) :
    (createDevIcon env img).width = img.width ∧
    (createDevIcon env img).height = img.height :=
  ⟨rfl, rfl⟩

/-- C2: the overlay triangle has leg length int(width * 0.6), its vertex
list is [(W, H), (W - t, H), (W, H - t)], the rasterized triangle is filled
with crimson (220, 20, 60, 200) on the otherwise transparent overlay, and
for width 128 the leg length is 76. -/
theorem overlay_triangle_spec (w h : Nat) (x y : Int) :
    triangleSize w = w * 6 / 10 ∧
    triangleVertices w h =
      [((w : Int), (h : Int)),
       ((w : Int) - triangleSize w, (h : Int)),
       ((w : Int), (h : Int) - triangleSize w)] ∧
    (fillTriangle (newImage w h ⟨255, 0, 0, 0⟩) overlayFill).pixel x y =
      (if inTriangle w h x y then ⟨220, 20, 60, 200⟩ else ⟨255, 0, 0, 0⟩) ∧
    triangleSize 128 = 76 :=
  ⟨rfl, rfl, rfl, rfl⟩

/-- C10: whatever the mode of the source image, it is converted to RGBA
before any drawing and the final image produced by create_dev_icon is in
RGBA mode, so the saved result carries an alpha channel. -/
theorem createDevIcon_always_rgba (env : FontEnv) (img : Image) :
    (convertRGBA img).mode = Mode.rgba ∧
    (createDevIcon env img).mode = Mode.rgba :=
  ⟨rfl, rfl⟩

/-- A rectangular glyph coverage mask. -/
def boxMask (x0 y0 x1 y1 : Int) : Int → Int → Bool := fun dx dy =>
  decide (x0 ≤ dx) && decide (dx < x1) && decide (y0 ≤ dy) && decide (dy < y1)

/-- A small font whose "DEV" bbox has no left or top offset. -/
def fontZeroOff : Font := ⟨⟨0, 0, 40, 20⟩, boxMask 0 0 40 20⟩

/-- A font whose measured "DEV" bbox has top offset 3, as truetype fonts
report at (0, 0): the glyphs start below the line origin. -/
def fontTopOff : Font := ⟨⟨0, 3, 40, 23⟩, boxMask 0 3 40 23⟩

/-- A font stand-in for ImageFont.load_default whose mask covers nothing. -/
def fontBlank : Font := ⟨⟨0, 0, 6, 8⟩, fun _ _ => false⟩

/-- An environment in which no system font path resolves. -/
def envNoFonts : FontEnv := ⟨fun _ _ => none, fontBlank⟩

/-- An environment in which every system font path resolves to fontZeroOff. -/
def envZeroOff : FontEnv := ⟨fun _ _ => some fontZeroOff, fontBlank⟩

/-- C4: the font size is max(6, int(width * 0.25)), hence at least 6 and 32
for width 128; the three system font paths are tried in their listed order
and the first that loads wins; when none loads, the default font is used,
so font selection never fails the icon. -/
theorem font_selection_spec (env : FontEnv) (w : Nat) :
    fontSize w = max 6 (w / 4) ∧
    6 ≤ fontSize w ∧
    fontSize 128 = 32 ∧
    usedFont env w = loadFont env.sys env.dflt (fontSize w) ∧
    (∀ f, env.sys dejavuPath (fontSize w) = some f → usedFont env w = f) ∧
    (∀ f, env.sys dejavuPath (fontSize w) = none →
      env.sys winPath (fontSize w) = some f → usedFont env w = f) ∧
    (∀ f, env.sys dejavuPath (fontSize w) = none →
      env.sys winPath (fontSize w) = none →
      env.sys macPath (fontSize w) = some f → usedFont env w = f) ∧
    (env.sys dejavuPath (fontSize w) = none →
      env.sys winPath (fontSize w) = none →
      env.sys macPath (fontSize w) = none → usedFont env w = env.dflt) := by
  refine ⟨rfl, le_max_left 6 (w / 4), rfl, rfl, ?_, ?_, ?_, ?_⟩
  · intro f h1
    simp [usedFont, loadFont, h1]
  · intro f h1 h2
    simp [usedFont, loadFont, h1, h2]
  · intro f h1 h2 h3
    simp [usedFont, loadFont, h1, h2, h3]
  · intro h1 h2 h3
    simp [usedFont, loadFont, h1, h2, h3]

/-- Witness for C4: with no system font available the default font is used;
with the first path available it is chosen; the size facts hold at 128. -/
theorem font_selection_spec_witness :
    fontSize 128 = 32 ∧
    usedFont envNoFonts 128 = fontBlank ∧
    usedFont envZeroOff 128 = fontZeroOff :=
  ⟨(font_selection_spec envNoFonts 128).2.2.1,
   (font_selection_spec envNoFonts 128).2.2.2.2.2.2.2 rfl rfl rfl,
   (font_selection_spec envZeroOff 128).2.2.2.2.1 fontZeroOff rfl⟩

/-- C3 counterexample: for a font whose measured bbox has top offset 3 (as
real truetype fonts report), the bottom edge of the drawn text lands at
height - 2 + 3, not at height - 2, on a 128 x 128 icon. -/
theorem text_inset_cex :
    ¬ (renderedRight 128 fontTopOff = 126 ∧ renderedBottom 128 fontTopOff = 126) := by
  decide

/-- C3 amended: the code places the text using only the bbox width and
height, so the right and bottom edges of the drawn text land at
width - 2 + bbox left offset and height - 2 + bbox top offset; they sit
exactly 2 pixels inset precisely when those offsets are zero, and the
covered pixels are painted solid white (255, 255, 255, 255). -/
theorem text_inset_amended (w h : Nat) (f : Font) :
    renderedRight w f = (w : Int) - 2 + f.bboxDEV.x0 ∧
    renderedBottom h f = (h : Int) - 2 + f.bboxDEV.y0 ∧
    (f.bboxDEV.x0 = 0 → renderedRight w f = (w : Int) - 2) ∧
    (f.bboxDEV.y0 = 0 → renderedBottom h f = (h : Int) - 2) ∧
    (∀ (img : Image) (x y : Int),
      f.mask (x - textX w f) (y - textY h f) = true →
      (drawText img (textX w f) (textY h f) f white).pixel x y = white) := by
  have hr : renderedRight w f = (w : Int) - 2 + f.bboxDEV.x0 := by
    simp only [renderedRight, textX, textWidth]
    ring
  have hb : renderedBottom h f = (h : Int) - 2 + f.bboxDEV.y0 := by
    simp only [renderedBottom, textY, textHeight]
    ring
  refine ⟨hr, hb, ?_, ?_, ?_⟩
  · intro h0
    rw [hr, h0, add_zero]
  · intro h0
    rw [hb, h0, add_zero]
  · intro img x y hm
    simp [drawText, hm]

/-- Witness for C3 amended: with a zero-offset font on a 128 x 128 icon the
drawn text edges are exactly at 126, and a covered pixel is white. -/
theorem text_inset_amended_witness :
    renderedRight 128 fontZeroOff = 126 ∧
    renderedBottom 128 fontZeroOff = 126 ∧
    (drawText (newImage 128 128 ⟨0, 0, 0, 255⟩) (textX 128 fontZeroOff)
      (textY 128 fontZeroOff) fontZeroOff white).pixel 88 108 = white :=
  ⟨(text_inset_amended 128 128 fontZeroOff).2.2.1 rfl,
   (text_inset_amended 128 128 fontZeroOff).2.2.2.1 rfl,
   (text_inset_amended 128 128 fontZeroOff).2.2.2.2
     (newImage 128 128 ⟨0, 0, 0, 255⟩) 88 108 (by decide)⟩

/-- The contents of a file as the script sees them: either a decodable
image or a file whose decoding raises an exception with the given message.
The per-icon exceptions of the script (decode, drawing and save failures)
are all surfaced through this case. -/
inductive FileData where
  | image (img : Image)
  | corrupt (err : String)

/-- The filesystem state: the set of existing directories and a partial map
from paths to file contents. -/
structure FS where
  dirs : List String
  files : String → Option FileData

/-- src_dir at line 24, relative to the project root. -/
def srcDir : String := "chrome-extension-wxt/public"

/-- dest_dir at line 25, relative to the project root. -/
def destDir : String := "chrome-extension-wxt/public/dev"

/-- The fixed icon file list of line 28. -/
def icons : List String := ["icon-16.png", "icon.png", "icon-48.png", "icon-128.png"]

/-- src_path = os.path.join(src_dir, icon_name) at line 115. -/
def srcPath (name : String) : String := srcDir ++ "/" ++ name

/-- dest_path = os.path.join(dest_dir, icon_name) at line 116. -/
def destPath (name : String) : String := destDir ++ "/" ++ name

/-- Writing one file: img.save(dest_path) at line 92. -/
def writeFile (fs : FS) (path : String) (d : FileData) : FS :=
  { fs with files := fun q => if q = path then some d else fs.files q }

/-- os.makedirs(dest_dir, exist_ok=True) at line 108. -/
def makedirs (fs : FS) (path : String) : FS :=
  { fs with dirs := path :: fs.dirs }

/-- The console lines the script prints, abstracted. -/
inductive LogLine where
  | banner
  | destLine
  | created (name : String)
  | skipped (name : String)
  | failed (name : String) (err : String)
  | summary (succeeded total : Nat)
  | srcMissing
deriving DecidableEq

/-- One iteration of the loop at lines 114-126: skip a missing source file
with a warning, catch a per-icon exception and print it, or create the dev
icon, save it under the dev directory and count the success. -/
def stepIcon (env : FontEnv) (acc : Nat × FS × List LogLine) (name : String) :
    Nat × FS × List LogLine :=
  match acc with
  | (count, fs, log) =>
    match fs.files (srcPath name) with
    | none => (count, fs, log ++ [LogLine.skipped name])
    | some (FileData.corrupt e) => (count, fs, log ++ [LogLine.failed name e])
    | some (FileData.image img) =>
      (count + 1,
       writeFile fs (destPath name) (FileData.image (createDevIcon env img)),
       log ++ [LogLine.created name])

/-- main (lines 95-131): print the banner, exit with status 1 if the source
directory is missing, otherwise create the destination directory, process
each icon of the fixed list in order, and print the success summary.  The
result is the exit status, the final filesystem and the log. -/
def mainRun (env : FontEnv) (fs : FS) : Nat × FS × List LogLine :=
  if srcDir ∈ fs.dirs then
    let res := icons.foldl (stepIcon env)
      (0, makedirs fs destDir, [LogLine.banner, LogLine.destLine])
    (0, res.2.1, res.2.2 ++ [LogLine.summary res.1 icons.length])
  else
    (1, fs, [LogLine.banner, LogLine.srcMissing])

/-- Whether an icon will be processed successfully from the given
filesystem: its source file exists and decodes to an image. -/
def isOk (fs : FS) (name : String) : Bool :=
  match fs.files (srcPath name) with
  | some (FileData.image _) => true
  | _ => false

/-- The log line the loop body emits for one icon, as a function of the
filesystem the source files are read from. -/
def entryFor (fs : FS) (name : String) : LogLine :=
  match fs.files (srcPath name) with
  | none => LogLine.skipped name
  | some (FileData.corrupt e) => LogLine.failed name e
  | some (FileData.image _) => LogLine.created name

lemma stepIcon_files_ne (env : FontEnv) (acc : Nat × FS × List LogLine)
    (name : String) (q : String) (hq : q ≠ destPath name) :
    ((stepIcon env acc name).2.1).files q = acc.2.1.files q := by
  obtain ⟨count, fs, log⟩ := acc
  simp only [stepIcon]
  cases h : fs.files (srcPath name) with
  | none => rfl
  | some d =>
    cases d with
    | corrupt e => rfl
    | image img => simp [writeFile, hq]

lemma foldl_stepIcon_files (env : FontEnv) :
    ∀ (L : List String) (acc : Nat × FS × List LogLine) (q : String),
      (∀ n ∈ L, q ≠ destPath n) →
      ((L.foldl (stepIcon env) acc).2.1).files q = acc.2.1.files q := by
  intro L
  induction L with
  | nil => intro acc q _; rfl
  | cons n L ih =>
    intro acc q hq
    rw [List.foldl_cons]
    rw [ih (stepIcon env acc n) q (fun m hm => hq m (List.mem_cons_of_mem n hm))]
    exact stepIcon_files_ne env acc n q (hq n (List.mem_cons_self n L))

lemma foldl_stepIcon_spec (env : FontEnv) (fs0 : FS) :
    ∀ (L : List String) (c : Nat) (fs : FS) (log : List LogLine),
      (∀ m ∈ L, fs.files (srcPath m) = fs0.files (srcPath m)) →
      (∀ n ∈ L, ∀ m ∈ L, srcPath m ≠ destPath n) →
      (L.foldl (stepIcon env) (c, fs, log)).1 =
        c + (L.filter (fun n => isOk fs0 n)).length ∧
      (L.foldl (stepIcon env) (c, fs, log)).2.2 =
        log ++ L.map (entryFor fs0) := by
  intro L
  induction L with
  | nil => intro c fs log _ _; simp
  | cons n L ih =>
    intro c fs log hread hsep
    have hn : fs.files (srcPath n) = fs0.files (srcPath n) :=
      hread n (List.mem_cons_self n L)
    have hread' : ∀ m ∈ L, fs.files (srcPath m) = fs0.files (srcPath m) :=
      fun m hm => hread m (List.mem_cons_of_mem n hm)
    have hsep' : ∀ a ∈ L, ∀ m ∈ L, srcPath m ≠ destPath a :=
      fun a ha m hm =>
        hsep a (List.mem_cons_of_mem n ha) m (List.mem_cons_of_mem n hm)
    rw [List.foldl_cons]
    simp only [stepIcon]
    cases h : fs0.files (srcPath n) with
    | none =>
      rw [hn, h]
      have := ih c fs (log ++ [LogLine.skipped n]) hread' hsep'
      refine ⟨?_, ?_⟩
      · rw [this.1]
        simp [List.filter_cons, isOk, h]
      · rw [this.2]
        simp [entryFor, h]
    | some d =>
      cases d with
      | corrupt e =>
        rw [hn, h]
        have := ih c fs (log ++ [LogLine.failed n e]) hread' hsep'
        refine ⟨?_, ?_⟩
        · rw [this.1]
          simp [List.filter_cons, isOk, h]
        · rw [this.2]
          simp [entryFor, h]
      | image img =>
        rw [hn, h]
        have hread2 : ∀ m ∈ L,
            (writeFile fs (destPath n) (FileData.image (createDevIcon env img))).files
              (srcPath m) = fs0.files (srcPath m) := by
          intro m hm
          have hne : srcPath m ≠ destPath n :=
            hsep n (List.mem_cons_self n L) m (List.mem_cons_of_mem n hm)
          rw [← hread' m hm]
          simp [writeFile, hne]
        have := ih (c + 1)
          (writeFile fs (destPath n) (FileData.image (createDevIcon env img)))
          (log ++ [LogLine.created n]) hread2 hsep'
        refine ⟨?_, ?_⟩
        · rw [this.1]
          simp [List.filter_cons, isOk, h]
          omega
        · rw [this.2]
          simp [entryFor, h]

/-- A filesystem with no directories and no files. -/
def emptyFS : FS := ⟨[], fun _ => none⟩

/-- A small opaque black source icon, in RGB mode. -/
def imgBlack : Image := ⟨16, 16, Mode.rgb, fun _ _ => ⟨0, 0, 0, 255⟩⟩

/-- A filesystem holding the source directory and three of the four icons;
icon-48.png is absent. -/
def threeIconFS : FS :=
  ⟨[srcDir], fun q =>
    if q = srcPath "icon-16.png" then some (FileData.image imgBlack)
    else if q = srcPath "icon.png" then some (FileData.image imgBlack)
    else if q = srcPath "icon-128.png" then some (FileData.image imgBlack)
    else none⟩

/-- A filesystem holding the source directory and one undecodable icon. -/
def corruptFS : FS :=
  ⟨[srcDir], fun q =>
    if q = srcPath "icon-16.png" then some (FileData.corrupt "bad header")
    else none⟩

/-- C5: when the source directory does not exist, main prints the error,
exits with status 1, and leaves the filesystem untouched: nothing is
created or written. -/
theorem main_missing_srcdir (env : FontEnv) (fs : FS) (h : srcDir ∉ fs.dirs) :
    mainRun env fs = (1, fs, [LogLine.banner, LogLine.srcMissing]) := by
  simp [mainRun, h]

/-- Witness for C5: on an empty filesystem main exits 1 and writes nothing. -/
theorem main_missing_srcdir_witness :
    mainRun envNoFonts emptyFS = (1, emptyFS, [LogLine.banner, LogLine.srcMissing]) :=
  main_missing_srcdir envNoFonts emptyFS (by simp [emptyFS])

/-- C7: when the source directory exists, main always exits with status 0;
its log is the banner lines, one line per icon in list order, and a summary
counting exactly the icons whose source file exists and decodes; an icon
whose processing raises an exception gets a failure line carrying its name
and the error text and is not counted as succeeded. -/
theorem main_catches_per_icon_errors (env : FontEnv) (fs : FS)
    (h : srcDir ∈ fs.dirs) :
    (mainRun env fs).1 = 0 ∧
    (mainRun env fs).2.2 =
      [LogLine.banner, LogLine.destLine] ++ icons.map (entryFor fs) ++
        [LogLine.summary ((icons.filter (fun n => isOk fs n)).length) icons.length] ∧
    (∀ name e, name ∈ icons →
      fs.files (srcPath name) = some (FileData.corrupt e) →
      LogLine.failed name e ∈ (mainRun env fs).2.2 ∧ isOk fs name = false) := by
  have hsep : ∀ n ∈ icons, ∀ m ∈ icons, srcPath m ≠ destPath n := by decide
  have hspec := foldl_stepIcon_spec env fs icons 0 (makedirs fs destDir)
    [LogLine.banner, LogLine.destLine] (fun m _ => rfl) hsep
  have hlog : (mainRun env fs).2.2 =
      [LogLine.banner, LogLine.destLine] ++ icons.map (entryFor fs) ++
        [LogLine.summary ((icons.filter (fun n => isOk fs n)).length) icons.length] := by
    simp only [mainRun, if_pos h]
    rw [hspec.2, hspec.1]
    simp
  refine ⟨by simp [mainRun, h], hlog, ?_⟩
  intro name e hname hcorr
  have hentry : entryFor fs name = LogLine.failed name e := by
    simp [entryFor, hcorr]
  refine ⟨?_, by simp [isOk, hcorr]⟩
  rw [hlog]
  have : LogLine.failed name e ∈ icons.map (entryFor fs) := by
    rw [← hentry]
    exact List.mem_map_of_mem (entryFor fs) hname
  simp [this]

/-- Witness for C7: with one corrupt icon present, main exits 0 and logs a
failure line with the icon name and error text. -/
theorem main_catches_per_icon_errors_witness :
    (mainRun envNoFonts corruptFS).1 = 0 ∧
    LogLine.failed "icon-16.png" "bad header" ∈ (mainRun envNoFonts corruptFS).2.2 := by
  have h := main_catches_per_icon_errors envNoFonts corruptFS
    (by simp [corruptFS])
  exact ⟨h.1, (h.2.2 "icon-16.png" "bad header" (by decide) rfl).1⟩

/-- C6: when icon-48.png is absent and the other three icons are present
and decodable, main skips icon-48.png with a warning, continues with the
remaining icons, exits with status 0, and reports 3 of 4 succeeded. -/
theorem main_skips_missing_icon (env : FontEnv) (fs : FS) (i16 iP i128 : Image)
    (hdir : srcDir ∈ fs.dirs)
    (h16 : fs.files (srcPath "icon-16.png") = some (FileData.image i16))
    (hP : fs.files (srcPath "icon.png") = some (FileData.image iP))
    (h48 : fs.files (srcPath "icon-48.png") = none)
    (h128 : fs.files (srcPath "icon-128.png") = some (FileData.image i128)) :
    (mainRun env fs).1 = 0 ∧
    (mainRun env fs).2.2 =
      [LogLine.banner, LogLine.destLine, LogLine.created "icon-16.png",
       LogLine.created "icon.png", LogLine.skipped "icon-48.png",
       LogLine.created "icon-128.png", LogLine.summary 3 4] := by
  have hsep : ∀ n ∈ icons, ∀ m ∈ icons, srcPath m ≠ destPath n := by decide
  have hspec := foldl_stepIcon_spec env fs icons 0 (makedirs fs destDir)
    [LogLine.banner, LogLine.destLine] (fun m _ => rfl) hsep
  refine ⟨by simp [mainRun, hdir], ?_⟩
  simp only [mainRun, if_pos hdir]
  rw [hspec.2, hspec.1]
  simp [icons, entryFor, isOk, h16, hP, h48, h128]

/-- Witness for C6: the 3 of 4 scenario on a concrete filesystem. -/
theorem main_skips_missing_icon_witness :
    (mainRun envNoFonts threeIconFS).1 = 0 ∧
    (mainRun envNoFonts threeIconFS).2.2 =
      [LogLine.banner, LogLine.destLine, LogLine.created "icon-16.png",
       LogLine.created "icon.png", LogLine.skipped "icon-48.png",
       LogLine.created "icon-128.png", LogLine.summary 3 4] :=
  main_skips_missing_icon envNoFonts threeIconFS imgBlack imgBlack imgBlack
    (by simp [threeIconFS]) rfl rfl rfl rfl

/-- C8: the destination path of every icon differs from its source path
(outputs go to the dev subdirectory), and main never writes any source
path: after the run every source file has its original contents. -/
theorem main_never_writes_sources (env : FontEnv) (fs : FS) (name : String)
    (h : name ∈ icons) :
    srcPath name ≠ destPath name ∧
    (mainRun env fs).2.1.files (srcPath name) = fs.files (srcPath name) := by
  have hne : ∀ n ∈ icons, srcPath n ≠ destPath n := by decide
  have hall : ∀ a ∈ icons, ∀ n ∈ icons, srcPath a ≠ destPath n := by decide
  have hq : ∀ n ∈ icons, srcPath name ≠ destPath n := fun n hn => hall name h n hn
  refine ⟨hne name h, ?_⟩
  by_cases hd : srcDir ∈ fs.dirs
  · simp only [mainRun, if_pos hd]
    have := foldl_stepIcon_files env icons
      (0, makedirs fs destDir, [LogLine.banner, LogLine.destLine]) (srcPath name) hq
    simpa [makedirs] using this
  · simp [mainRun, hd]

/-- Witness for C8: after running on the three-icon filesystem the source
file of icon-16.png is untouched and its paths differ. -/
theorem main_never_writes_sources_witness :
    srcPath "icon-16.png" ≠ destPath "icon-16.png" ∧
    (mainRun envNoFonts threeIconFS).2.1.files (srcPath "icon-16.png") =
      threeIconFS.files (srcPath "icon-16.png") :=
  main_never_writes_sources envNoFonts threeIconFS "icon-16.png" (by decide)

/-- The value of compositing the crimson fill over an opaque pixel, with
the Pillow coefficients evaluated: coef1 is 25600, coef2 is 7040 and the
combined alpha is again 255. -/
lemma crimson_over_solid (r g b : Nat) :
    alphaCompositePixel ⟨r, g, b, 255⟩ overlayFill =
      ⟨shiftForDiv255 (5632000 + r * 7040 + 16384) / 128,
       shiftForDiv255 (512000 + g * 7040 + 16384) / 128,
       shiftForDiv255 (1536000 + b * 7040 + 16384) / 128,
       shiftForDiv255 65153⟩ := by
  simp only [alphaCompositePixel, overlayFill]
  norm_num

set_option maxRecDepth 8192 in
/-- Compositing the crimson fill changes every opaque pixel whose red
channel is at most 218. -/
lemma crimson_changes_solid (d : RGBA) (ha : d.a = 255) (hr : d.r ≤ 218) :
    alphaCompositePixel d overlayFill ≠ d := by
  obtain ⟨r, g, b, a⟩ := d
  have ha' : a = 255 := ha
  subst ha'
  have hr' : r ≤ 218 := hr
  intro heq
  rw [crimson_over_solid] at heq
  have h1 : shiftForDiv255 (5632000 + r * 7040 + 16384) / 128 = r :=
    congrArg RGBA.r heq
  have key : ∀ x : Nat, x ≤ 218 →
      shiftForDiv255 (5632000 + x * 7040 + 16384) / 128 ≠ x := by decide
  exact key r hr' h1

/-- A font with realistic small-size metrics for "DEV": bbox (0, 1, 11, 6),
glyph coverage filling the box. -/
def fontSpill : Font := ⟨⟨0, 1, 11, 6⟩, boxMask 0 1 11 6⟩

/-- An environment in which the first system font path yields fontSpill. -/
def envSpill : FontEnv := ⟨fun _ _ => some fontSpill, fontBlank⟩

/-- C9 counterexample: on a 16 x 16 black icon with a font of realistic
metrics, the drawn "DEV" label extends beyond the triangle, so the in-range
pixel (3, 10), which lies above-left of the overlay triangle, differs from
the source pixel after create_dev_icon. -/
theorem overlay_locality_cex :
    inTriangle 16 16 3 10 = false ∧
    (0 : Int) ≤ 3 ∧ (3 : Int) < 16 ∧ (0 : Int) ≤ 10 ∧ (10 : Int) < 16 ∧
    (createDevIcon envSpill imgBlack).pixel 3 10 ≠
      (convertRGBA imgBlack).pixel 3 10 := by
  decide

/-- C9 amended: a pixel covered by neither the triangle raster nor the
drawn text mask is identical in the output to the corresponding source
pixel; a pixel covered by the triangle but not the text carries the alpha
composite of the crimson fill over the source pixel, which differs from the
source whenever the source pixel is opaque with red channel at most 218.
The untouched region excludes the rendered text, which with real font
metrics can extend above-left of the triangle. -/
theorem overlay_locality_amended (env : FontEnv) (img : Image) (x y : Int) :
    (textCovers env img.width img.height x y = false →
      inTriangle img.width img.height x y = false →
      (createDevIcon env img).pixel x y = (convertRGBA img).pixel x y) ∧
    (textCovers env img.width img.height x y = false →
      inTriangle img.width img.height x y = true →
      (createDevIcon env img).pixel x y =
        alphaCompositePixel (img.pixel x y) overlayFill) ∧
    (textCovers env img.width img.height x y = false →
      inTriangle img.width img.height x y = true →
      (img.pixel x y).a = 255 → (img.pixel x y).r ≤ 218 →
      (createDevIcon env img).pixel x y ≠ (convertRGBA img).pixel x y) := by
  have base : (createDevIcon env img).pixel x y =
      (if textCovers env img.width img.height x y then white
       else alphaCompositePixel (img.pixel x y)
         (if inTriangle img.width img.height x y then overlayFill
          else ⟨255, 0, 0, 0⟩)) := rfl
  refine ⟨?_, ?_, ?_⟩
  · intro hc ht
    rw [base, hc, ht]
    simp [alphaCompositePixel, convertRGBA]
  · intro hc ht
    rw [base, hc, ht]
    simp
  · intro hc ht ha hr
    rw [base, hc, ht]
    simp only [Bool.false_eq_true, if_false, if_true]
    show alphaCompositePixel (img.pixel x y) overlayFill ≠ img.pixel x y
    exact crimson_changes_solid (img.pixel x y) ha hr

/-- Witness for C9 amended: on the black 16 x 16 icon with no text
coverage, the corner pixel (0, 0) is untouched while the triangle pixel
(15, 15) carries the composite value and differs from the source. -/
theorem overlay_locality_amended_witness :
    (createDevIcon envNoFonts imgBlack).pixel 0 0 =
      (convertRGBA imgBlack).pixel 0 0 ∧
    (createDevIcon envNoFonts imgBlack).pixel 15 15 =
      alphaCompositePixel (imgBlack.pixel 15 15) overlayFill ∧
    (createDevIcon envNoFonts imgBlack).pixel 15 15 ≠
      (convertRGBA imgBlack).pixel 15 15 :=
  ⟨(overlay_locality_amended envNoFonts imgBlack 0 0).1 rfl rfl,
   (overlay_locality_amended envNoFonts imgBlack 15 15).2.1 rfl rfl,
   (overlay_locality_amended envNoFonts imgBlack 15 15).2.2 rfl rfl rfl (by decide)⟩
